import Mathlib

/-!
Verification of the backend state-synchronization engine of the
PandoraLauncher game-content launcher.

The development shallowly embeds the relevant Rust sources:
  * `crates/backend/src/instance.rs` — per-instance loaders for
    worlds / servers / mods, generation-counted mod IDs, dirty sets;
  * `crates/backend/src/backend_filesystem.rs` — the raw-event
    classifier, batch-local coalescing, and the filesystem event router;
  * `crates/backend/src/install_content.rs` — the hash-verified
    content-addressed download pipeline.

Machine integers are modelled as `Nat`/`Int` with explicit reduction
modulo `2 ^ 64` where the Rust code relies on wrapping semantics
(`usize::wrapping_add`, `i64` negation in a sort key).  Filesystem paths
are modelled as lists of components.  External collaborators (the OS
watcher, the HTTP client, the on-disk world/server data) are passed in
as explicit environment values.  Definitions whose Rust source is not
part of the provided sources (only their callers are) carry a doc
comment starting with `Modelled from the spec:`.
-/

namespace Launcher

/-- A filesystem path, modelled as its list of components.  The empty
list plays the role of the filesystem root: `parent` of the root is
`none`, and `parent` of `xs ++ [x]` is `xs`, matching
`std::path::Path::parent` / `file_name` on absolute paths. -/
abbrev FPath := List String

/-- Model of `std::path::Path::parent`. -/
def fpParent (p : FPath) : Option FPath :=
  if p.isEmpty then none else some p.dropLast

/-- Model of `std::path::Path::file_name`. -/
def fpFileName (p : FPath) : Option String :=
  p.getLast?

/-- Modulus of the 64-bit machine integers (`usize`, `i64`). -/
def USIZE_MOD : Nat := 2 ^ 64

/-- Modelled from the spec: `InstanceID` lives in the `bridge` crate,
which is not among the provided sources; per the spec it is a
"(slot index, generation) pair identifying a live entry in the Instance
Store". -/
structure InstanceID where
  index : Nat
  generation : Nat
deriving DecidableEq, Repr

/-- Modelled from the spec: the sentinel "dangling" `InstanceID` value
denoting not-yet-registered. -/
def InstanceID.dangling : InstanceID := ⟨USIZE_MOD - 1, USIZE_MOD - 1⟩

/-- Modelled from the spec: `ModID` — "(index, generation) into the
current mod snapshot".  The struct literal `InstanceModID { index,
generation }` appears verbatim in `instance.rs`. -/
structure InstanceModID where
  index : Nat
  generation : Nat
deriving DecidableEq, Repr

/-- Modelled from the spec: the dangling sentinel `InstanceModID` used as
a placeholder before `finish_loading_mods` assigns real IDs. -/
def InstanceModID.dangling : InstanceModID := ⟨USIZE_MOD - 1, USIZE_MOD - 1⟩

/-- Modelled from the spec: the five load-pipeline states
`{Unloaded, Loading, Loaded, LoadingDirty, LoadedDirty}` of the
`bridge` crate's `BridgeDataLoadState`. -/
inductive BridgeDataLoadState where
  | Unloaded
  | Loading
  | Loaded
  | LoadingDirty
  | LoadedDirty
deriving DecidableEq, Repr

/-- World summary as built by `load_world_summary` in `instance.rs`
(`title`, `subtitle`, `level_path`, `last_played`, `png_icon`; the icon
bytes are abstracted to an opaque `Option Nat`). -/
structure InstanceWorldSummary where
  title : String
  subtitle : String
  level_path : FPath
  last_played : Int
  png_icon : Option Nat
deriving DecidableEq, Repr

/-- Server summary as built by `load_servers_summary` in `instance.rs`
(icon abstracted to an opaque `Option Nat`). -/
structure InstanceServerSummary where
  name : String
  ip : String
  png_icon : Option Nat
deriving DecidableEq, Repr

/-- Mod summary as built by the mod scan tasks in `instance.rs`.  The
`mod_summary` payload (shared metadata) is abstracted to its stable
identity key, which is what the scan's `sort_by_key` uses. -/
structure InstanceModSummary where
  mod_summary_id : String
  id : InstanceModID
  file_name : String
  path : FPath
  enabled : Bool
deriving DecidableEq, Repr

/-- Record of a spawned worlds load task: `load_worlds_initial` spawns a
full directory scan; `load_worlds_dirty` captures the drained dirty set
(`std::mem::take(&mut self.dirty_worlds)`) and the previous snapshot. -/
inductive WorldsTask where
  | initial
  | dirty (captured : List FPath) (last : List InstanceWorldSummary)
deriving DecidableEq, Repr

/-- Record of a spawned mods load task, mirroring `WorldsTask`. -/
inductive ModsTask where
  | initial
  | dirty (captured : List FPath) (last : List InstanceModSummary)
deriving DecidableEq, Repr

/-- Record of a spawned servers load task: `load_servers` always
re-parses the whole `servers.dat`. -/
inductive ServersTask where
  | full
deriving DecidableEq, Repr

/-- The mutable per-instance state of `Instance` in `instance.rs`.  The
`child` process handle is omitted; the `(Arc<AtomicBool>, JoinHandle)`
pairs are modelled by the task records above (the atomic "finished" flag
is passed explicitly to the `finish_loading_*` models). -/
structure Instance where
  id : InstanceID
  root_path : FPath
  server_dat_path : FPath
  saves_path : FPath
  mods_path : FPath
  name : String
  version : String
  worlds_state : BridgeDataLoadState
  dirty_worlds : List FPath
  worlds_loading : Option WorldsTask
  worlds : Option (List InstanceWorldSummary)
  servers_state : BridgeDataLoadState
  dirty_servers : Bool
  servers_loading : Option ServersTask
  servers : Option (List InstanceServerSummary)
  mods_state : BridgeDataLoadState
  dirty_mods : List FPath
  mods_generation : Nat
  mods_loading : Option ModsTask
  mods : Option (List InstanceModSummary)
deriving DecidableEq, Repr

/-- `HashSet::insert`: returns whether the value was newly inserted,
together with the updated set.  The hash set is modelled as a
duplicate-free list in insertion order. -/
def hsetInsert (s : List FPath) (x : FPath) : Bool × List FPath :=
  if x ∈ s then (false, s) else (true, s ++ [x])

/-- `Instance::mark_world_state_dirty` from `instance.rs`. -/
def mark_world_state_dirty (i : Instance) : Instance :=
  { i with
    worlds_state :=
      match i.worlds_state with
      | .Loading => .LoadingDirty
      | .Loaded => .LoadedDirty
      | s => s }

/-- `Instance::mark_server_state_dirty` from `instance.rs`. -/
def mark_server_state_dirty (i : Instance) : Instance :=
  { i with
    dirty_servers := true
    servers_state :=
      match i.servers_state with
      | .Loading => .LoadingDirty
      | .Loaded => .LoadedDirty
      | s => s }

/-- `Instance::mark_mods_state_dirty` from `instance.rs`. -/
def mark_mods_state_dirty (i : Instance) : Instance :=
  { i with
    mods_state :=
      match i.mods_state with
      | .Loading => .LoadingDirty
      | .Loaded => .LoadedDirty
      | s => s }

/-- `Instance::try_get_mod` from `instance.rs`: reject a generation
mismatch, otherwise index into the current snapshot
(`self.mods.as_ref().and_then(|mods| mods.get(id.index))`). -/
def try_get_mod (i : Instance) (id : InstanceModID) : Option InstanceModSummary :=
  if id.generation ≠ i.mods_generation then none
  else i.mods.bind fun mods => mods[id.index]?

/-- `StartLoadResult` from `instance.rs`. -/
inductive StartLoadResult where
  | Initial
  | Reload
  | None
deriving DecidableEq, Repr

/-- `Instance::start_load_worlds` from `instance.rs`.  Spawning a
background task is modelled by recording the task (with the inputs the
spawned closure captures) in `worlds_loading`; both spawn paths first
store `Loading` into the load state, and the dirty path drains
`dirty_worlds` via `std::mem::take`. -/
def start_load_worlds (i : Instance) : StartLoadResult × Instance :=
  if i.worlds_loading.isSome then (.None, i)
  else
    match i.worlds with
    | none =>
        (.Initial,
          { i with worlds_state := .Loading, worlds_loading := some .initial })
    | some previous =>
        if i.dirty_worlds.isEmpty then (.None, i)
        else
          (.Reload,
            { i with
              worlds_state := .Loading
              dirty_worlds := []
              worlds_loading := some (.dirty i.dirty_worlds previous) })

/-- `Instance::start_load_servers` from `instance.rs`.  `load_servers`
resets `dirty_servers` to `false` at spawn time. -/
def start_load_servers (i : Instance) : StartLoadResult × Instance :=
  if i.servers_loading.isSome then (.None, i)
  else
    match i.servers with
    | none =>
        (.Initial,
          { i with
            servers_state := .Loading
            dirty_servers := false
            servers_loading := some .full })
    | some _ =>
        if i.dirty_servers then
          (.Reload,
            { i with
              servers_state := .Loading
              dirty_servers := false
              servers_loading := some .full })
        else (.None, i)

/-- `Instance::start_load_mods` from `instance.rs`. -/
def start_load_mods (i : Instance) : StartLoadResult × Instance :=
  if i.mods_loading.isSome then (.None, i)
  else
    match i.mods with
    | none =>
        (.Initial,
          { i with mods_state := .Loading, mods_loading := some .initial })
    | some previous =>
        if i.dirty_mods.isEmpty then (.None, i)
        else
          (.Reload,
            { i with
              mods_state := .Loading
              dirty_mods := []
              mods_loading := some (.dirty i.dirty_mods previous) })

/-- `Instance::finish_loading_mods` from `instance.rs`, as a function of
the task's atomic "finished" flag and the joined task result `r`.  When
no task is pending or the flag is unset the poll returns `None` without
touching the state; when the load state is neither `Loading` nor
`LoadingDirty` the Rust code hits `unreachable!`, modelled as `none`.
On success the mod generation advances by `usize::wrapping_add(1)` and
every summary in the snapshot is assigned `(index, new generation)`. -/
def finish_loading_mods (i : Instance) (finished : Bool)
    (r : List InstanceModSummary) :
    Option (Instance × List InstanceModSummary) :=
  match i.mods_loading with
  | none => none
  | some _ =>
    if !finished then none
    else
      match i.mods_state with
      | .Loading | .LoadingDirty =>
          let newState : BridgeDataLoadState :=
            match i.mods_state with
            | .LoadingDirty => .LoadedDirty
            | _ => .Loaded
          let g := (i.mods_generation + 1) % USIZE_MOD
          let r' := r.enum.map fun p => { p.2 with id := ⟨p.1, g⟩ }
          some
            ({ i with
                mods_loading := none
                mods_state := newState
                mods_generation := g
                mods := some r' }, r')
      | _ => none

/-- The on-disk environment seen by the worlds load tasks: which paths
are directories, what `load_world_summary` would parse out of a world
directory (`none` models any per-entry I/O or parse failure, which the
scan skips), and which paths exist. -/
structure WorldsDisk where
  isDir : FPath → Bool
  parseWorld : FPath → Option (String × String × Int × Option Nat)
  pathExists : FPath → Bool

/-- `load_world_summary` from `instance.rs`, relative to a `WorldsDisk`:
on success it produces a summary whose `level_path` is the scanned
directory itself. -/
def load_world_summary (d : WorldsDisk) (path : FPath) :
    Option InstanceWorldSummary :=
  (d.parseWorld path).map fun q =>
    { title := q.1
      subtitle := q.2.1
      level_path := path
      last_played := q.2.2.1
      png_icon := q.2.2.2 }

/-- The `i64` wrap of an integer into `[-2^63, 2^63)`; Rust's release
mode negation `-s.last_played` wraps. -/
def i64wrap (x : Int) : Int := (x + 2 ^ 63) % (2 ^ 64 : Int) - 2 ^ 63

/-- The sort key `-s.last_played` of `sort_by_key` in the worlds scans,
with `i64` wrapping semantics. -/
def worldSortKey (s : InstanceWorldSummary) : Int := i64wrap (-s.last_played)

/-- Comparison relation of the worlds `sort_by_key`. -/
def worldLE (a b : InstanceWorldSummary) : Prop := worldSortKey a ≤ worldSortKey b

instance : DecidableRel worldLE := fun a b => inferInstanceAs (Decidable (_ ≤ _))

instance : IsTotal InstanceWorldSummary worldLE := ⟨fun a b => le_total _ _⟩

instance : IsTrans InstanceWorldSummary worldLE := ⟨fun _ _ _ => le_trans⟩

/-- The dirty-scan loop of `load_worlds_dirty`: walk the drained dirty
set in iteration order, stop once 64 directories were visited, skip
non-directories, and skip (but count) entries whose summary fails to
parse. -/
def parseDirtyWorlds (d : WorldsDisk) : List FPath → Nat → List InstanceWorldSummary
  | [], _ => []
  | p :: rest, count =>
    if 64 ≤ count then []
    else if !d.isDir p then parseDirtyWorlds d rest count
    else
      match load_world_summary d p with
      | some s => s :: parseDirtyWorlds d rest (count + 1)
      | none => parseDirtyWorlds d rest (count + 1)

/-- The re-parse phase of `load_worlds_dirty` (count starts at 0). -/
def worldsParsed (d : WorldsDisk) (dirty : List FPath) :
    List InstanceWorldSummary :=
  parseDirtyWorlds d dirty 0

/-- The carry-over phase of `load_worlds_dirty`: every previous entry
whose path is neither in the dirty set nor gone from disk survives
unchanged. -/
def worldsCarried (d : WorldsDisk) (dirty : List FPath)
    (last : List InstanceWorldSummary) : List InstanceWorldSummary :=
  last.filter fun old =>
    decide (old.level_path ∉ dirty) && d.pathExists old.level_path

/-- The concatenated candidate list of the merge, before sorting and
truncation. -/
def worldsMergeCandidates (d : WorldsDisk) (dirty : List FPath)
    (last : List InstanceWorldSummary) : List InstanceWorldSummary :=
  worldsParsed d dirty ++ worldsCarried d dirty last

/-- The body of the task spawned by `Instance::load_worlds_dirty`:
re-parse the captured dirty paths, carry over every previous entry whose
path is neither in the dirty set nor gone from disk, sort ascending by
`-last_played` (Rust's stable `sort_by_key`, modelled by the stable
`insertionSort`, whose output any stable sort determines uniquely), and
truncate to 64 entries. -/
def load_worlds_dirty_task (d : WorldsDisk) (dirty : List FPath)
    (last : List InstanceWorldSummary) : List InstanceWorldSummary :=
  (List.insertionSort worldLE (worldsMergeCandidates d dirty last)).take 64

/-- `notify::event::CreateKind` (external `notify` crate). -/
inductive CreateKind where
  | Any | File | Folder | Other
deriving DecidableEq, Repr

/-- `notify::event::DataChange` (external `notify` crate). -/
inductive DataChange where
  | Any | Size | Content | Other
deriving DecidableEq, Repr

/-- `notify::event::RenameMode` (external `notify` crate). -/
inductive RenameMode where
  | Any | To | From | Both | Other
deriving DecidableEq, Repr

/-- `notify::event::ModifyKind` (external `notify` crate); the metadata
payload is irrelevant because every `Metadata` modification is dropped
by the classifier. -/
inductive ModifyKind where
  | Any
  | Data (change : DataChange)
  | Metadata
  | Name (mode : RenameMode)
  | Other
deriving DecidableEq, Repr

/-- `notify::event::RemoveKind` (external `notify` crate). -/
inductive RemoveKind where
  | Any | File | Folder | Other
deriving DecidableEq, Repr

/-- `notify::EventKind` (external `notify` crate); the access payload is
irrelevant because every `Access` event is dropped. -/
inductive EventKind where
  | Any
  | Access
  | Create (kind : CreateKind)
  | Modify (kind : ModifyKind)
  | Remove (kind : RemoveKind)
  | Other
deriving DecidableEq, Repr

/-- A raw `notify::Event` as delivered inside a debounce batch. -/
structure NotifyEvent where
  kind : EventKind
  paths : List FPath
deriving DecidableEq, Repr

/-- `FilesystemEvent` from `backend_filesystem.rs`. -/
inductive FilesystemEvent where
  | Changed (path : FPath) (maybe_is_file : Bool) (maybe_is_folder : Bool)
  | Remove (path : FPath)
  | Rename (src dst : FPath)
deriving DecidableEq, Repr

/-- `FilesystemEvent::change_or_remove_path` from
`backend_filesystem.rs`: `Rename` has no such path. -/
def change_or_remove_path : FilesystemEvent → Option FPath
  | .Changed path _ _ => some path
  | .Remove path => some path
  | .Rename _ _ => none

/-- `get_simple_event` from `backend_filesystem.rs`: classify a raw
notification into the canonical event alphabet, or drop it.  The
`event.paths[0]` / `event.paths[1]` indexing is modelled with a default
of the empty path (the Rust code would panic on an absent path). -/
def get_simple_event (event : NotifyEvent) : Option FilesystemEvent :=
  match event.kind with
  | .Create createKind =>
      if createKind = .Other then none
      else
        some (.Changed (event.paths.getD 0 [])
          (createKind = .File ∨ createKind = .Any : Bool)
          (createKind = .Folder ∨ createKind = .Any : Bool))
  | .Modify modifyKind =>
      match modifyKind with
      | .Any => some (.Changed (event.paths.getD 0 []) true true)
      | .Data dataChange =>
          if dataChange = .Any ∨ dataChange = .Content then
            some (.Changed (event.paths.getD 0 []) true false)
          else none
      | .Metadata => none
      | .Name renameMode =>
          match renameMode with
          | .Any => none
          | .To => some (.Changed (event.paths.getD 0 []) true true)
          | .From => some (.Remove (event.paths.getD 0 []))
          | .Both => some (.Rename (event.paths.getD 0 []) (event.paths.getD 1 []))
          | .Other => none
      | .Other => none
  | .Remove removeKind =>
      if removeKind = .Other then none
      else some (.Remove (event.paths.getD 0 []))
  | .Any => none
  | .Access => none
  | .Other => none

/-- The batch-local coalescing loop of `BackendState::handle_filesystem`
with a pending `last_event`: the pending event is routed only when its
`change_or_remove_path` differs from the next one's, otherwise it is
dropped in favour of the next event; the final pending event is always
routed.  The returned list is the sequence of router invocations. -/
def coalesceGo (last : FilesystemEvent) :
    List FilesystemEvent → List FilesystemEvent
  | [] => [last]
  | e :: rest =>
    if change_or_remove_path last ≠ change_or_remove_path e then
      last :: coalesceGo e rest
    else coalesceGo e rest

/-- Batch-local coalescing of classified events (`last_event` starts out
absent). -/
def coalesce : List FilesystemEvent → List FilesystemEvent
  | [] => []
  | e :: rest => coalesceGo e rest

/-- `WatchTarget` from the `backend` crate, with the variants exactly as
matched in `backend_filesystem.rs`. -/
inductive WatchTarget where
  | InstancesDir
  | InstanceDir (id : InstanceID)
  | InvalidInstanceDir
  | InstanceLevelDir (id : InstanceID)
  | InstanceSavesDir (id : InstanceID)
  | ServersDat (id : InstanceID)
  | InstanceModsDir (id : InstanceID)
deriving DecidableEq, Repr

/-- Observable effects emitted by the router (messages to the frontend,
instance destruction, watch registrations, attempted instance loads,
server-dirty markings).  The trace makes "exactly once" claims
stateable. -/
inductive RouterAction where
  | sendError (msg : String)
  | sendInfoRename (oldName newName : String)
  | sendModify (id : InstanceID)
  | removeInstance (id : InstanceID)
  | markServerDirty (id : InstanceID)
  | loadInstanceFromPath (path : FPath)
  | registerWatch (path : FPath) (target : WatchTarget)
deriving DecidableEq, Repr

/-- The parts of `BackendState` touched by the filesystem router.  The
watch registry is a map `path → watch target`; the instance store is a
slot array (spec: arena indexed by `InstanceID.index` and validated
against `InstanceID.generation`); `watcherOk` and `loadInstanceOk` are
the environments for the external OS watcher and for
`load_instance_from_path`. -/
structure BackendState where
  watching : FPath → Option WatchTarget
  instances : List (Option Instance)
  reload_mods_immediately : List InstanceID
  watcherOk : FPath → Bool
  loadInstanceOk : FPath → Bool
  actions : List RouterAction

/-- Map insertion into the watch registry. -/
def watchInsert (w : FPath → Option WatchTarget) (p : FPath)
    (t : WatchTarget) : FPath → Option WatchTarget :=
  fun q => if q = p then some t else w q

/-- Map removal from the watch registry. -/
def watchRemove (w : FPath → Option WatchTarget) (p : FPath) :
    FPath → Option WatchTarget :=
  fun q => if q = p then none else w q

/-- The `self.instances.get_mut(id.index)` / `instance.id == id` pattern
used throughout the router: look up the slot and validate its
generation. -/
def getLiveInstance (st : BackendState) (id : InstanceID) : Option Instance :=
  match st.instances.getD id.index none with
  | some inst => if inst.id = id then some inst else none
  | none => none

/-- Overwrite the slot of a live instance. -/
def setLiveInstance (st : BackendState) (id : InstanceID) (inst : Instance) :
    BackendState :=
  { st with instances := st.instances.set id.index (some inst) }

/-- Append an effect to the action trace. -/
def pushAction (st : BackendState) (a : RouterAction) : BackendState :=
  { st with actions := st.actions ++ [a] }

/-- Modelled from the spec: `BackendState::remove_instance` is not among
the provided sources; per the spec, destroying an instance removes it
from the instance store and notifies consumers ("instance
added/removed/modified" notifications).  The slot is cleared only when
it still holds the identified instance. -/
def remove_instance (st : BackendState) (id : InstanceID) : BackendState :=
  let st :=
    match getLiveInstance st id with
    | some _ => { st with instances := st.instances.set id.index none }
    | none => st
  pushAction st (.removeInstance id)

/-- Modelled from the spec: `BackendState::watch_filesystem` is not
among the provided sources; per the spec it subscribes the OS watcher to
the path ("register/unregister by absolute path") and records
`path → target` in the watch registry.  On watcher failure nothing is
registered, mirroring the explicit `is_ok` guard visible at the
`ServersDat` re-registration site. -/
def watch_filesystem (st : BackendState) (p : FPath) (t : WatchTarget) :
    BackendState :=
  if st.watcherOk p then
    pushAction { st with watching := watchInsert st.watching p t }
      (.registerWatch p t)
  else st

/-- Modelled from the spec: `BackendState::load_instance_from_path` is
not among the provided sources; per the spec it attempts to parse the
instance's info file and (re)create or update the instance.  The model
records the attempt and reports success from the `loadInstanceOk`
environment; the router only branches on that success flag. -/
def load_instance_from_path (st : BackendState) (p : FPath) :
    Bool × BackendState :=
  (st.loadInstanceOk p, pushAction st (.loadInstanceFromPath p))

/-- `parent_is_instances_dir` from `backend_filesystem.rs`. -/
def parent_is_instances_dir (watching : FPath → Option WatchTarget)
    (path : FPath) : Bool :=
  match fpParent path with
  | none => false
  | some parent =>
    match watching parent with
    | some .InstancesDir => true
    | _ => false

/-- The `InstanceLevelDir`/`InstanceSavesDir` pattern
`instance.dirty_worlds.insert(p)` followed by
`mark_world_state_dirty` when the insertion was new. -/
def insertDirtyWorld (inst : Instance) (p : FPath) : Instance :=
  let (isNew, s) := hsetInsert inst.dirty_worlds p
  let inst := { inst with dirty_worlds := s }
  if isNew then mark_world_state_dirty inst else inst

/-- The `InstanceModsDir` pattern: `instance.dirty_mods.insert(p)`; when
new, mark the mods state dirty and, if the one-shot
`reload_mods_immediately` marker for this instance exists, take it and
promote it into the post-batch reload set.  Returns the updated
instance, the updated backend-level marker set, and the updated
post-batch effect set. -/
def insertDirtyMod (inst : Instance) (markers : List InstanceID)
    (eff : List InstanceID) (p : FPath) :
    Instance × List InstanceID × List InstanceID :=
  let (isNew, s) := hsetInsert inst.dirty_mods p
  let inst := { inst with dirty_mods := s }
  if isNew then
    let inst := mark_mods_state_dirty inst
    if inst.id ∈ markers then
      (inst, markers.filter (· ≠ inst.id),
        if inst.id ∈ eff then eff else eff ++ [inst.id])
    else (inst, markers, eff)
  else (inst, markers, eff)

/-- `BackendState::handle_filesystem_event` from `backend_filesystem.rs`,
threading the `after_debounce_effects.reload_mods` set (`eff`) through.
Each `match` arm follows the corresponding Rust arm; state mutations of
a live instance go through `getLiveInstance`/`setLiveInstance`, which
model the `get_mut(id.index)` + `instance.id == id` pattern. -/
def handle_filesystem_event (st : BackendState) (eff : List InstanceID)
    (event : FilesystemEvent) : BackendState × List InstanceID :=
  match event with
  | .Changed path maybe_is_file maybe_is_folder =>
    match st.watching path with
    | some (.ServersDat id) =>
        -- Changed on a watched ServersDat: mark server-dirty and stop.
        (match getLiveInstance st id with
         | some inst =>
             pushAction (setLiveInstance st id (mark_server_state_dirty inst))
               (.markServerDirty id)
         | none => st, eff)
    | _ =>
      -- Fall through to the parent lookup.
      match fpParent path with
      | none => (st, eff)
      | some parent_path =>
        match st.watching parent_path with
        | none => (st, eff)
        | some parentTarget =>
          match parentTarget with
          | .InstancesDir =>
              if maybe_is_folder then
                let (success, st) := load_instance_from_path st path
                if !success then
                  (watch_filesystem st path .InvalidInstanceDir, eff)
                else (st, eff)
              else (st, eff)
          | .InstanceDir _ | .InvalidInstanceDir =>
              if maybe_is_file then
                match fpFileName path with
                | none => (st, eff)
                | some file_name =>
                  if file_name = "info_v1.json" then
                    ((load_instance_from_path st parent_path).2, eff)
                  else (st, eff)
              else (st, eff)
          | .InstanceLevelDir id =>
              (match getLiveInstance st id with
               | some inst =>
                   setLiveInstance st id (insertDirtyWorld inst parent_path)
               | none => st, eff)
          | .InstanceSavesDir id =>
              (match getLiveInstance st id with
               | some inst => setLiveInstance st id (insertDirtyWorld inst path)
               | none => st, eff)
          | .ServersDat _ => (st, eff)
          | .InstanceModsDir id =>
              match getLiveInstance st id with
              | some inst =>
                  let (inst, markers, eff) :=
                    insertDirtyMod inst st.reload_mods_immediately eff path
                  (setLiveInstance
                    { st with reload_mods_immediately := markers } id inst, eff)
              | none => (st, eff)
  | .Remove path =>
    match st.watching path with
    | some watchTarget =>
      -- `self.watching.remove(&path)` succeeded.
      let st := { st with watching := watchRemove st.watching path }
      match watchTarget with
      | .InstancesDir =>
          (pushAction st (.sendError "Instances folder has been removed! What?!"),
            eff)
      | .InstanceDir id => (remove_instance st id, eff)
      | .InvalidInstanceDir => (st, eff)
      | .InstanceLevelDir id =>
          (match getLiveInstance st id with
           | some inst => setLiveInstance st id (insertDirtyWorld inst path)
           | none => st, eff)
      | .InstanceSavesDir _ => (st, eff)
      | .ServersDat id =>
          let st :=
            match getLiveInstance st id with
            | some inst =>
                pushAction (setLiveInstance st id (mark_server_state_dirty inst))
                  (.markServerDirty id)
            | none => st
          -- Minecraft swaps servers.dat away and back; re-listen immediately.
          if st.watcherOk path then
            ({ st with watching := watchInsert st.watching path watchTarget },
              eff)
          else (st, eff)
      | .InstanceModsDir _ => (st, eff)
    | none =>
      match fpParent path with
      | none => (st, eff)
      | some parent_path =>
        match st.watching parent_path with
        | none => (st, eff)
        | some parentTarget =>
          match parentTarget with
          | .InstanceDir id =>
              (match fpFileName path with
               | none => st
               | some file_name =>
                 if file_name = "info_v1.json" then
                   watch_filesystem (remove_instance st id) parent_path
                     .InvalidInstanceDir
                 else st, eff)
          | .InstanceLevelDir id =>
              (match getLiveInstance st id with
               | some inst =>
                   setLiveInstance st id (insertDirtyWorld inst parent_path)
               | none => st, eff)
          | .InstanceSavesDir id =>
              (match getLiveInstance st id with
               | some inst => setLiveInstance st id (insertDirtyWorld inst path)
               | none => st, eff)
          | .InstanceModsDir id =>
              (match getLiveInstance st id with
               | some inst =>
                 let (inst, markers, eff') :=
                   insertDirtyMod inst st.reload_mods_immediately eff path
                 (setLiveInstance
                   { st with reload_mods_immediately := markers } id inst, eff')
               | none => (st, eff))
          | _ => (st, eff)
  | .Rename src dst =>
    match st.watching src with
    | some watchTarget =>
      -- `self.watching.remove(&from)` succeeded.
      let st := { st with watching := watchRemove st.watching src }
      match watchTarget with
      | .InstancesDir =>
          (pushAction st (.sendError "Instances folder has been removed! What?!"),
            eff)
      | .InstanceDir id =>
          (match getLiveInstance st id with
           | some inst =>
             if !parent_is_instances_dir st.watching dst then
               remove_instance st id
             else
               let old_name := inst.name
               -- `to.file_name().unwrap()`: in this branch `dst` has a
               -- watched parent, so the component exists.
               let new_name := (fpFileName dst).getD ""
               let inst := { inst with name := new_name }
               let st := setLiveInstance st id inst
               let st :=
                 { st with watching := watchInsert st.watching dst (.InstanceDir id) }
               let st := pushAction st (.sendInfoRename old_name new_name)
               pushAction st (.sendModify id)
           | none => st, eff)
      | .InvalidInstanceDir =>
          if parent_is_instances_dir st.watching dst
              ∧ st.watching dst = none then
            (watch_filesystem st dst .InvalidInstanceDir, eff)
          else (st, eff)
      | .InstanceLevelDir id =>
          (match getLiveInstance st id with
           | some inst =>
             let inst := { inst with dirty_worlds := (hsetInsert inst.dirty_worlds src).2 }
             let inst :=
               if fpParent dst = fpParent src then
                 { inst with dirty_worlds := (hsetInsert inst.dirty_worlds dst).2 }
               else inst
             setLiveInstance st id (mark_world_state_dirty inst)
           | none => st, eff)
      | .InstanceSavesDir _ => (st, eff)
      | .ServersDat _ => (st, eff)
      | .InstanceModsDir _ => (st, eff)
    | none =>
      -- Neither endpoint is a self-target: check both parents for
      -- InstanceModsDir membership.
      let (st, eff) :=
        match fpParent src with
        | none => (st, eff)
        | some from_parent =>
          match st.watching from_parent with
          | some (.InstanceModsDir id) =>
              (match getLiveInstance st id with
               | some inst =>
                 let (inst, markers, eff') :=
                   insertDirtyMod inst st.reload_mods_immediately eff src
                 (setLiveInstance
                   { st with reload_mods_immediately := markers } id inst, eff')
               | none => (st, eff))
          | _ => (st, eff)
      match fpParent dst with
      | none => (st, eff)
      | some to_parent =>
        match st.watching to_parent with
        | some (.InstanceModsDir id) =>
            (match getLiveInstance st id with
             | some inst =>
               let (inst, markers, eff') :=
                 insertDirtyMod inst st.reload_mods_immediately eff dst
               (setLiveInstance
                 { st with reload_mods_immediately := markers } id inst, eff')
             | none => (st, eff))
        | _ => (st, eff)

/-- The post-batch phase of `BackendState::handle_filesystem`: for every
instance in the promoted reload set that is still live, kick off its mod
pipeline. -/
def applyAfterDebounce (st : BackendState) (eff : List InstanceID) :
    BackendState :=
  eff.foldl
    (fun st id =>
      match getLiveInstance st id with
      | some inst => setLiveInstance st id (start_load_mods inst).2
      | none => st)
    st

/-- `BackendState::handle_filesystem` on a successfully delivered
debounce batch: classify each raw event, coalesce adjacent events that
reduce to the same changed-or-removed path (keeping the later one),
route the surviving events in order, then run the post-batch mod
reloads. -/
def handle_filesystem (st : BackendState) (raws : List NotifyEvent) :
    BackendState :=
  let routed := coalesce (raws.filterMap get_simple_event)
  let (st, eff) :=
    routed.foldl (fun p e => handle_filesystem_event p.1 p.2 e) (st, [])
  applyAfterDebounce st eff

/-- Value of a single hex digit (`hex` crate semantics: both cases
accepted). -/
def hexDigitVal (c : Char) : Option Nat :=
  if 48 ≤ c.toNat ∧ c.toNat ≤ 57 then some (c.toNat - 48)
  else if 97 ≤ c.toNat ∧ c.toNat ≤ 102 then some (c.toNat - 87)
  else if 65 ≤ c.toNat ∧ c.toNat ≤ 70 then some (c.toNat - 55)
  else none

/-- Decode a hex string (as a character list) into bytes; fails on an
odd length or a non-hex character. -/
def hexDecodePairs : List Char → Option (List Nat)
  | [] => some []
  | [_] => none
  | c1 :: c2 :: rest =>
    match hexDigitVal c1, hexDigitVal c2, hexDecodePairs rest with
    | some hi, some lo, some bytes => some ((hi * 16 + lo) :: bytes)
    | _, _, _ => none

/-- Model of `hex::decode_to_slice(sha1, &mut [0u8; 20])`: the input
must decode to exactly 20 bytes. -/
def decodeSha1 (sha1 : List Char) : Option (List Nat) :=
  match hexDecodePairs sha1 with
  | some bytes => if bytes.length = 20 then some bytes else none
  | none => none

/-- Lowercase hex digit for a value below 16. -/
def hexDigitChar (n : Nat) : Char :=
  if n < 10 then Char.ofNat (48 + n) else Char.ofNat (87 + n)

/-- Model of `hex::encode`: lowercase, two digits per byte. -/
def hexEncodeBytes (bytes : List Nat) : List Char :=
  bytes.foldr
    (fun b acc => hexDigitChar (b / 16 % 16) :: hexDigitChar (b % 16) :: acc) []

/-- A path inside the content library:
`<store-root>/<hex[0..2]>/<hex>[.ext]`, represented as the (sub-folder,
file-name) pair of character lists. -/
abbrev LibPath := List Char × List Char

/-- The content-addressed target path of `download_file_into_library_inner`,
computed from the expected hash (and the descriptor's extension) alone:
`hash_folder = content_library_dir.join(&hash_as_str[..2])`, file name
`hash_as_str` with `set_extension` applied when the install path has an
extension. -/
def contentAddressedPath (expected_hash : List Nat) (ext : Option (List Char)) :
    LibPath :=
  let hash_as_str := hexEncodeBytes expected_hash
  (hash_as_str.take 2,
    hash_as_str ++ match ext with | some e => '.' :: e | none => [])

/-- The content library's on-disk state: what bytes, if any, each
library path currently holds. -/
abbrev LibraryFs := LibPath → Option (List Nat)

/-- `ContentInstallError` from `install_content.rs` (payloads of the
wrapped foreign errors are dropped). -/
inductive ContentInstallError where
  | Reqwest
  | NotOK (status : Nat)
  | WrongFilesize
  | WrongHash
  | InvalidHash (sha1 : List Char)
  | IoError
  | InvalidPath
deriving DecidableEq, Repr

/-- Modelled from the spec: `crate::check_sha1_hash` is not among the
provided sources; per the spec ("If a file already exists there and
verifies against the expected hash") it reports whether the file at the
path hashes to the expected digest, with any I/O failure collapsed to
`false` by the caller's `unwrap_or(false)`. -/
def check_sha1_hash (digest : List Nat → List Nat) (fs : LibraryFs)
    (p : LibPath) (expected : List Nat) : Bool :=
  match fs p with
  | some data => digest data = expected
  | none => false

/-- The HTTP collaborator's reply to the GET: a status code and the
streamed body chunks. -/
structure HttpResponse where
  status : Nat
  chunks : List (List Nat)
deriving DecidableEq, Repr

/-- Outcome of one `download_file_into_library_inner` call: the Rust
return value, the library state left behind, whether the network was
consulted at all, and whether the progress tracker was finished with
`ProgressTrackerFinishType::Fast`. -/
structure DownloadOutcome where
  result : Except ContentInstallError (LibPath × List Nat)
  fs : LibraryFs
  networkUsed : Bool
  finishedFast : Bool

/-- `BackendState::download_file_into_library_inner` from
`install_content.rs`, parameterised by the digest function of the
external `sha1` crate and by the HTTP collaborator's response.  The
steps, in source order: decode the declared hash (else `InvalidHash`);
compute the content-addressed path from the expected hash; if a file
already on disk verifies, fast-finish without touching the network;
otherwise GET (non-200 ⇒ `NotOK`), create the file, stream the body
while hashing and counting bytes, and compare the transferred length
and final digest against expectations — a mismatch deletes the file and
fails with `WrongHash` (checked first) or `WrongFilesize`. -/
def download_file_into_library_inner (digest : List Nat → List Nat)
    (fs : LibraryFs) (ext : Option (List Char)) (sha1 : List Char)
    (size : Nat) (response : HttpResponse) : DownloadOutcome :=
  match decodeSha1 sha1 with
  | none =>
      { result := .error (.InvalidHash sha1), fs := fs
        networkUsed := false, finishedFast := false }
  | some expected_hash =>
    let path := contentAddressedPath expected_hash ext
    if check_sha1_hash digest fs path expected_hash then
      { result := .ok (path, expected_hash), fs := fs
        networkUsed := false, finishedFast := true }
    else if response.status ≠ 200 then
      { result := .error (.NotOK response.status), fs := fs
        networkUsed := true, finishedFast := false }
    else
      let content := response.chunks.flatten
      let total_bytes := (response.chunks.map List.length).sum
      let fsW : LibraryFs := fun q => if q = path then some content else fs q
      let actual_hash := digest content
      let wrong_hash := actual_hash ≠ expected_hash
      let wrong_size := total_bytes ≠ size
      if wrong_hash ∨ wrong_size then
        { result := .error (if wrong_hash then .WrongHash else .WrongFilesize)
          fs := fun q => if q = path then none else fsW q
          networkUsed := true, finishedFast := true }
      else
        { result := .ok (path, expected_hash), fs := fsW
          networkUsed := true, finishedFast := true }

/-! Theorems checking the specification's claims against the embedded
code. -/

/-- Advancing a 64-bit wrapping counter never reproduces its current
value. -/
lemma succ_mod_usize_ne (n : Nat) : (n + 1) % USIZE_MOD ≠ n := by
  have hM : USIZE_MOD = 18446744073709551616 := by norm_num [USIZE_MOD]
  rw [hM]
  omega

/-- What a completed mod reload publishes, extracted from
`finish_loading_mods`. -/
lemma finish_loading_mods_spec (i : Instance) (finished : Bool)
    (r : List InstanceModSummary) (i' : Instance)
    (o : List InstanceModSummary)
    (h : finish_loading_mods i finished r = some (i', o)) :
    i'.mods_generation = (i.mods_generation + 1) % USIZE_MOD ∧
    i'.mods = some o ∧
    o = r.enum.map
      (fun p => { p.2 with id := ⟨p.1, (i.mods_generation + 1) % USIZE_MOD⟩ }) := by
  unfold finish_loading_mods at h
  cases hml : i.mods_loading with
  | none => rw [hml] at h; exact absurd h (by simp)
  | some task =>
    rw [hml] at h
    cases finished with
    | false => exact absurd h (by simp)
    | true =>
      simp only [Bool.not_true, if_false, ite_false, Bool.false_eq_true] at h
      cases hst : i.mods_state <;> rw [hst] at h <;>
        simp only [reduceCtorEq, Option.some.injEq, Prod.mk.injEq] at h <;>
        try exact h.elim
      · exact ⟨by rw [← h.1], by rw [← h.1, ← h.2], h.2.symm⟩
      · exact ⟨by rw [← h.1], by rw [← h.1, ← h.2], h.2.symm⟩

/-- A neutral concrete instance used by the witnesses. -/
def baseInstance : Instance :=
  { id := ⟨0, 1⟩
    root_path := ["instances", "alpha"]
    server_dat_path := ["instances", "alpha", ".minecraft", "servers.dat"]
    saves_path := ["instances", "alpha", ".minecraft", "saves"]
    mods_path := ["instances", "alpha", ".minecraft", "mods"]
    name := "alpha"
    version := "1.21"
    worlds_state := .Unloaded
    dirty_worlds := []
    worlds_loading := none
    worlds := none
    servers_state := .Unloaded
    dirty_servers := false
    servers_loading := none
    servers := none
    mods_state := .Unloaded
    dirty_mods := []
    mods_generation := 0
    mods_loading := none
    mods := none }

/-- C10: `try_get_mod` is total — for every `InstanceModID` whatsoever
(the dangling sentinel, an out-of-range index, a stale generation, or an
instance whose mods were never loaded) it returns an `Option` value, it
returns `some` exactly when the ID's generation equals the instance's
current mod generation and the index lies inside the current snapshot,
and in that case the result is precisely the snapshot entry at the
index. -/
theorem try_get_mod_total_lookup (i : Instance) (id : InstanceModID) :
    (∀ s, try_get_mod i id = some s →
      id.generation = i.mods_generation ∧
      ∃ mods, i.mods = some mods ∧ mods[id.index]? = some s) ∧
    (id.generation = i.mods_generation →
      ∀ mods, i.mods = some mods → try_get_mod i id = mods[id.index]?) := by
  constructor
  · intro s hs
    unfold try_get_mod at hs
    by_cases hg : id.generation = i.mods_generation
    · simp only [hg, ne_eq, not_true_eq_false, if_false, ite_false] at hs
      rcases Option.bind_eq_some.mp (by simpa using hs) with ⟨mods, hm, hget⟩
      exact ⟨hg, mods, hm, hget⟩
    · simp [hg] at hs
  · intro hg mods hm
    unfold try_get_mod
    simp [hg, hm]

/-- Concrete mod summary for the C10 witness. -/
def c10_mod : InstanceModSummary :=
  { mod_summary_id := "modA", id := ⟨0, 3⟩, file_name := "a.jar"
    path := ["mods", "a.jar"], enabled := true }

/-- Concrete instance for the C10 witness. -/
def c10_inst : Instance :=
  { baseInstance with mods_generation := 3, mods := some [c10_mod] }

/-- Witness for C10 at a concrete instance: a matching generation and
in-range index retrieves the snapshot entry. -/
theorem try_get_mod_total_lookup_witness :
    try_get_mod c10_inst ⟨0, 3⟩ = some c10_mod :=
  (try_get_mod_total_lookup c10_inst ⟨0, 3⟩).2 rfl [c10_mod] rfl

/-- C4: every completed mod reload advances the instance's mod
generation (wrapping 64-bit increment) and stamps each snapshot entry
with `(index, new generation)`; any `ModID` carrying the pre-reload
generation then fails `try_get_mod`, and after a second completed reload
any `ModID` issued by the first reload also fails — regardless of the
new snapshot's contents, in particular when the same file path occupies
the same index. -/
theorem mod_reload_invalidates_ids (i : Instance)
    (r1 : List InstanceModSummary) (i1 : Instance)
    (o1 : List InstanceModSummary)
    (h1 : finish_loading_mods i true r1 = some (i1, o1)) :
    i1.mods_generation = (i.mods_generation + 1) % USIZE_MOD ∧
    i1.mods = some o1 ∧
    (∀ (k : Nat) (s : InstanceModSummary),
      o1[k]? = some s → s.id = ⟨k, i1.mods_generation⟩) ∧
    (∀ id, id.generation = i.mods_generation → try_get_mod i1 id = none) ∧
    (∀ (j i2 : Instance) (r2 o2 : List InstanceModSummary),
      j.mods_generation = i1.mods_generation →
      finish_loading_mods j true r2 = some (i2, o2) →
      ∀ id, id.generation = i1.mods_generation → try_get_mod i2 id = none) := by
  obtain ⟨hg1, hm1, ho1⟩ := finish_loading_mods_spec i true r1 i1 o1 h1
  refine ⟨hg1, hm1, ?_, ?_, ?_⟩
  · intro k s hs
    rw [ho1] at hs
    rw [List.getElem?_map, List.getElem?_enum] at hs
    cases hr : r1[k]? with
    | none => rw [hr] at hs; simp at hs
    | some t =>
      rw [hr] at hs
      simp only [Option.map_some', Option.some.injEq] at hs
      rw [← hs, hg1]
  · intro id hid
    unfold try_get_mod
    rw [if_pos]
    rw [hid, hg1]
    exact fun hEq => succ_mod_usize_ne i.mods_generation hEq.symm
  · intro j i2 r2 o2 hjg h2 id hid
    obtain ⟨hg2, _, _⟩ := finish_loading_mods_spec j true r2 i2 o2 h2
    unfold try_get_mod
    rw [if_pos]
    rw [hid, hg2, hjg]
    exact fun hEq => succ_mod_usize_ne i1.mods_generation hEq.symm

/-- Concrete pre-reload mod summary for the C4 witness (ID still
dangling, as produced by the scan task). -/
def c4_mod : InstanceModSummary :=
  { mod_summary_id := "modA", id := .dangling, file_name := "a.jar"
    path := ["mods", "a.jar"], enabled := true }

/-- Concrete instance with a pending mod load for the C4 witness. -/
def c4_inst : Instance :=
  { baseInstance with mods_state := .Loading, mods_loading := some .initial }

/-- The snapshot the C4 witness reload publishes. -/
def c4_out : List InstanceModSummary := [{ c4_mod with id := ⟨0, 1⟩ }]

/-- The instance state after the C4 witness reload completes. -/
def c4_after : Instance :=
  { c4_inst with
    mods_loading := none
    mods_state := .Loaded
    mods_generation := 1
    mods := some c4_out }

/-- Witness for C4: the concrete reload completes as computed, and a
`ModID` carrying the pre-reload generation (0) fails lookup while the
same index with the new generation succeeds. -/
theorem mod_reload_invalidates_ids_witness :
    try_get_mod c4_after ⟨0, 0⟩ = none :=
  (mod_reload_invalidates_ids c4_inst [c4_mod] c4_after c4_out
    (by decide)).2.2.2.1 ⟨0, 0⟩ rfl

/-- C6: the loader start triad, for all three pipelines at once.  With a
load already in flight (`a`), `start_load` returns `None` and changes
nothing; with no prior snapshot (`b`), it returns `Initial` and spawns
the full scan; with a prior snapshot and a non-empty dirty set (`c`), it
returns `Reload` and spawns the incremental rescan over the drained
dirty set; with a prior snapshot and an empty dirty set (`d`), it
returns `None` and changes nothing. -/
theorem start_load_triad
    (a b c d : Instance)
    (prevWc : List InstanceWorldSummary) (prevSc : List InstanceServerSummary)
    (prevMc : List InstanceModSummary)
    (haW : a.worlds_loading.isSome) (haS : a.servers_loading.isSome)
    (haM : a.mods_loading.isSome)
    (hbW1 : b.worlds_loading = none) (hbW2 : b.worlds = none)
    (hbS1 : b.servers_loading = none) (hbS2 : b.servers = none)
    (hbM1 : b.mods_loading = none) (hbM2 : b.mods = none)
    (hcW1 : c.worlds_loading = none) (hcW2 : c.worlds = some prevWc)
    (hcW3 : c.dirty_worlds ≠ [])
    (hcS1 : c.servers_loading = none) (hcS2 : c.servers = some prevSc)
    (hcS3 : c.dirty_servers = true)
    (hcM1 : c.mods_loading = none) (hcM2 : c.mods = some prevMc)
    (hcM3 : c.dirty_mods ≠ [])
    (hdW1 : d.worlds_loading = none) (hdW2 : d.worlds.isSome)
    (hdW3 : d.dirty_worlds = [])
    (hdS1 : d.servers_loading = none) (hdS2 : d.servers.isSome)
    (hdS3 : d.dirty_servers = false)
    (hdM1 : d.mods_loading = none) (hdM2 : d.mods.isSome)
    (hdM3 : d.dirty_mods = []) :
    (start_load_worlds a = (.None, a) ∧ start_load_servers a = (.None, a) ∧
      start_load_mods a = (.None, a)) ∧
    ((start_load_worlds b).1 = .Initial ∧
      (start_load_worlds b).2.worlds_loading = some .initial ∧
      (start_load_servers b).1 = .Initial ∧
      (start_load_servers b).2.servers_loading = some .full ∧
      (start_load_mods b).1 = .Initial ∧
      (start_load_mods b).2.mods_loading = some .initial) ∧
    ((start_load_worlds c).1 = .Reload ∧
      (start_load_worlds c).2.worlds_loading =
        some (.dirty c.dirty_worlds prevWc) ∧
      (start_load_servers c).1 = .Reload ∧
      (start_load_servers c).2.servers_loading = some .full ∧
      (start_load_mods c).1 = .Reload ∧
      (start_load_mods c).2.mods_loading = some (.dirty c.dirty_mods prevMc)) ∧
    (start_load_worlds d = (.None, d) ∧ start_load_servers d = (.None, d) ∧
      start_load_mods d = (.None, d)) := by
  refine ⟨⟨?_, ?_, ?_⟩, ⟨?_, ?_, ?_, ?_, ?_, ?_⟩, ⟨?_, ?_, ?_, ?_, ?_, ?_⟩,
    ⟨?_, ?_, ?_⟩⟩
  · unfold start_load_worlds; rw [if_pos haW]
  · unfold start_load_servers; rw [if_pos haS]
  · unfold start_load_mods; rw [if_pos haM]
  · unfold start_load_worlds; rw [hbW1]; simp [hbW2]
  · unfold start_load_worlds; rw [hbW1]; simp [hbW2]
  · unfold start_load_servers; rw [hbS1]; simp [hbS2]
  · unfold start_load_servers; rw [hbS1]; simp [hbS2]
  · unfold start_load_mods; rw [hbM1]; simp [hbM2]
  · unfold start_load_mods; rw [hbM1]; simp [hbM2]
  · unfold start_load_worlds
    rw [hcW1]; simp [hcW2, List.isEmpty_iff, hcW3]
  · unfold start_load_worlds
    rw [hcW1]; simp [hcW2, List.isEmpty_iff, hcW3]
  · unfold start_load_servers; rw [hcS1]; simp [hcS2, hcS3]
  · unfold start_load_servers; rw [hcS1]; simp [hcS2, hcS3]
  · unfold start_load_mods
    rw [hcM1]; simp [hcM2, List.isEmpty_iff, hcM3]
  · unfold start_load_mods
    rw [hcM1]; simp [hcM2, List.isEmpty_iff, hcM3]
  · unfold start_load_worlds
    rw [hdW1]
    obtain ⟨w, hw⟩ := Option.isSome_iff_exists.mp hdW2
    simp [hw, hdW3]
  · unfold start_load_servers
    rw [hdS1]
    obtain ⟨w, hw⟩ := Option.isSome_iff_exists.mp hdS2
    simp [hw, hdS3]
  · unfold start_load_mods
    rw [hdM1]
    obtain ⟨w, hw⟩ := Option.isSome_iff_exists.mp hdM2
    simp [hw, hdM3]

/-- Concrete instance with every pipeline in flight (C6 witness). -/
def c6_a : Instance :=
  { baseInstance with
    worlds_loading := some .initial
    servers_loading := some .full
    mods_loading := some .initial }

/-- Concrete instance with snapshots and non-empty dirt (C6 witness). -/
def c6_c : Instance :=
  { baseInstance with
    worlds := some []
    dirty_worlds := [["saves", "w1"]]
    servers := some []
    dirty_servers := true
    mods := some []
    dirty_mods := [["mods", "m1.jar"]] }

/-- Concrete instance with snapshots and no dirt (C6 witness). -/
def c6_d : Instance :=
  { baseInstance with
    worlds := some []
    servers := some []
    mods := some [] }

/-- Witness for C6 at four concrete instances covering all four triad
cases for all three pipelines. -/
theorem start_load_triad_witness :
    (start_load_worlds c6_a = (.None, c6_a) ∧
      start_load_servers c6_a = (.None, c6_a) ∧
      start_load_mods c6_a = (.None, c6_a)) ∧
    ((start_load_worlds baseInstance).1 = .Initial ∧
      (start_load_worlds baseInstance).2.worlds_loading = some .initial ∧
      (start_load_servers baseInstance).1 = .Initial ∧
      (start_load_servers baseInstance).2.servers_loading = some .full ∧
      (start_load_mods baseInstance).1 = .Initial ∧
      (start_load_mods baseInstance).2.mods_loading = some .initial) ∧
    ((start_load_worlds c6_c).1 = .Reload ∧
      (start_load_worlds c6_c).2.worlds_loading =
        some (.dirty c6_c.dirty_worlds []) ∧
      (start_load_servers c6_c).1 = .Reload ∧
      (start_load_servers c6_c).2.servers_loading = some .full ∧
      (start_load_mods c6_c).1 = .Reload ∧
      (start_load_mods c6_c).2.mods_loading = some (.dirty c6_c.dirty_mods [])) ∧
    (start_load_worlds c6_d = (.None, c6_d) ∧
      start_load_servers c6_d = (.None, c6_d) ∧
      start_load_mods c6_d = (.None, c6_d)) :=
  start_load_triad c6_a baseInstance c6_c c6_d [] [] []
    (by decide) (by decide) (by decide)
    rfl rfl rfl rfl rfl rfl
    rfl rfl (by decide) rfl rfl rfl rfl rfl (by decide)
    rfl (by decide) rfl rfl (by decide) rfl rfl (by decide) rfl

/-- C2: once a remote install with a well-formed declared hash `H`
reaches the download path (the HTTP collaborator answers 200), the
operation either ends `ok` with a file at the content-addressed path of
`H` whose digest is `H`, or fails with `WrongHash` (the streamed digest
differs from `H`) or `WrongFilesize` (the transferred byte count differs
from the declared size), in both failure cases deleting the partial file
and leaving nothing at that path. -/
theorem download_verification (digest : List Nat → List Nat)
    (fs : LibraryFs) (ext : Option (List Char)) (sha1 : List Char)
    (size : Nat) (response : HttpResponse) (H : List Nat)
    (hdec : decodeSha1 sha1 = some H) (hstatus : response.status = 200) :
    (∃ content,
      (download_file_into_library_inner digest fs ext sha1 size
        response).result = .ok (contentAddressedPath H ext, H) ∧
      (download_file_into_library_inner digest fs ext sha1 size
        response).fs (contentAddressedPath H ext) = some content ∧
      digest content = H) ∨
    ((download_file_into_library_inner digest fs ext sha1 size
        response).result = .error .WrongHash ∧
      digest response.chunks.flatten ≠ H ∧
      (download_file_into_library_inner digest fs ext sha1 size
        response).fs (contentAddressedPath H ext) = none) ∨
    ((download_file_into_library_inner digest fs ext sha1 size
        response).result = .error .WrongFilesize ∧
      digest response.chunks.flatten = H ∧
      (response.chunks.map List.length).sum ≠ size ∧
      (download_file_into_library_inner digest fs ext sha1 size
        response).fs (contentAddressedPath H ext) = none) := by
  by_cases hcache : check_sha1_hash digest fs (contentAddressedPath H ext) H
  · left
    have hcache' := hcache
    unfold check_sha1_hash at hcache'
    cases hfs : fs (contentAddressedPath H ext) with
    | none => rw [hfs] at hcache'; exact absurd hcache' (by simp)
    | some data =>
      rw [hfs] at hcache'
      have hd : digest data = H := by simpa using hcache'
      refine ⟨data, ?_, ?_, hd⟩ <;>
        simp [download_file_into_library_inner, hdec, hcache, hfs]
  · have h200 : ¬response.status ≠ 200 := by rw [hstatus]; simp
    by_cases hwh : digest response.chunks.flatten = H
    · by_cases hws : (response.chunks.map List.length).sum = size
      · left
        refine ⟨response.chunks.flatten, ?_, ?_, hwh⟩ <;>
          simp [download_file_into_library_inner, hdec, hcache, h200, hwh, hws]
      · right; right
        refine ⟨?_, hwh, hws, ?_⟩ <;>
          simp [download_file_into_library_inner, hdec, hcache, h200, hwh, hws]
    · right; left
      refine ⟨?_, hwh, ?_⟩ <;>
        simp [download_file_into_library_inner, hdec, hcache, h200, hwh]

/-- The 20-byte zero hash used by the download witnesses. -/
def c2_hash : List Nat := List.replicate 20 0

/-- Its 40-character hex spelling. -/
def c2_sha1 : List Char := List.replicate 40 '0'

/-- A digest function for the download witnesses that maps the probe
body `[1, 2, 3]` (and everything else) to the zero hash. -/
def c2_digest : List Nat → List Nat := fun _ => c2_hash

/-- Witness for C2: a concrete empty library, a 200 response carrying
three bytes, declared size 3 — the download verifies and lands at the
content-addressed path. -/
theorem download_verification_witness :
    decodeSha1 c2_sha1 = some c2_hash ∧
    ((∃ content,
      (download_file_into_library_inner c2_digest (fun _ => none) none
        c2_sha1 3 ⟨200, [[1, 2, 3]]⟩).result =
          .ok (contentAddressedPath c2_hash none, c2_hash) ∧
      (download_file_into_library_inner c2_digest (fun _ => none) none
        c2_sha1 3 ⟨200, [[1, 2, 3]]⟩).fs (contentAddressedPath c2_hash none) =
          some content ∧
      c2_digest content = c2_hash) ∨
    ((download_file_into_library_inner c2_digest (fun _ => none) none
        c2_sha1 3 ⟨200, [[1, 2, 3]]⟩).result = .error .WrongHash ∧
      c2_digest ([[1, 2, 3]] : List (List Nat)).flatten ≠ c2_hash ∧
      (download_file_into_library_inner c2_digest (fun _ => none) none
        c2_sha1 3 ⟨200, [[1, 2, 3]]⟩).fs (contentAddressedPath c2_hash none) =
          none) ∨
    ((download_file_into_library_inner c2_digest (fun _ => none) none
        c2_sha1 3 ⟨200, [[1, 2, 3]]⟩).result = .error .WrongFilesize ∧
      c2_digest ([[1, 2, 3]] : List (List Nat)).flatten = c2_hash ∧
      (([[1, 2, 3]] : List (List Nat)).map List.length).sum ≠ 3 ∧
      (download_file_into_library_inner c2_digest (fun _ => none) none
        c2_sha1 3 ⟨200, [[1, 2, 3]]⟩).fs (contentAddressedPath c2_hash none) =
          none)) :=
  ⟨by decide,
    download_verification c2_digest (fun _ => none) none c2_sha1 3
      ⟨200, [[1, 2, 3]]⟩ c2_hash (by decide) rfl⟩

/-- A successful `download_file_into_library_inner` call decoded the
declared hash, returned the content-addressed path of that hash, and
left a file there whose digest is the hash. -/
lemma download_ok_state (digest : List Nat → List Nat) (fs : LibraryFs)
    (ext : Option (List Char)) (sha1 : List Char) (size : Nat)
    (response : HttpResponse) (p : LibPath) (h : List Nat)
    (h1 : (download_file_into_library_inner digest fs ext sha1 size
      response).result = .ok (p, h)) :
    decodeSha1 sha1 = some h ∧
    p = contentAddressedPath h ext ∧
    ∃ content,
      (download_file_into_library_inner digest fs ext sha1 size
        response).fs p = some content ∧
      digest content = h := by
  cases hdec : decodeSha1 sha1 with
  | none => exact absurd h1 (by simp [download_file_into_library_inner, hdec])
  | some H =>
    by_cases hcache : check_sha1_hash digest fs (contentAddressedPath H ext) H
    · have hph : p = contentAddressedPath H ext ∧ h = H := by
        have h1' := h1
        simp [download_file_into_library_inner, hdec, hcache] at h1'
        exact ⟨h1'.1.symm, h1'.2.symm⟩
      have hcache' := hcache
      unfold check_sha1_hash at hcache'
      cases hfs : fs (contentAddressedPath H ext) with
      | none => rw [hfs] at hcache'; exact absurd hcache' (by simp)
      | some data =>
        rw [hfs] at hcache'
        refine ⟨by rw [hph.2], by rw [hph.1, hph.2], data, ?_, ?_⟩
        · rw [hph.1]
          simp [download_file_into_library_inner, hdec, hcache, hfs]
        · rw [hph.2]
          simpa using hcache'
    · by_cases h200 : response.status ≠ 200
      · exact absurd h1
          (by simp [download_file_into_library_inner, hdec, hcache, h200])
      · by_cases hwh : digest response.chunks.flatten = H
        · by_cases hws : (response.chunks.map List.length).sum = size
          · have hph : p = contentAddressedPath H ext ∧ h = H := by
              have h1' := h1
              simp [download_file_into_library_inner, hdec, hcache, h200,
                hwh, hws] at h1'
              exact ⟨h1'.1.symm, h1'.2.symm⟩
            refine ⟨by rw [hph.2], by rw [hph.1, hph.2],
              response.chunks.flatten, ?_, by rw [hph.2]; exact hwh⟩
            rw [hph.1]
            simp [download_file_into_library_inner, hdec, hcache, h200,
              hwh, hws]
          · exact absurd h1 (by
              simp [download_file_into_library_inner, hdec, hcache, h200,
                hwh, hws])
        · exact absurd h1 (by
            simp [download_file_into_library_inner, hdec, hcache, h200, hwh])

/-- C3: the content-addressed target path is a function of the expected
hash (and the descriptor's extension) alone, and a second install of the
same `(url, sha1, size)` descriptor against the library state a
successful first install left behind touches the network zero times,
finishes fast, resolves to the very same physical path, and leaves the
library untouched. -/
theorem cache_hit_idempotence (digest : List Nat → List Nat)
    (fs : LibraryFs) (ext : Option (List Char)) (sha1 : List Char)
    (size : Nat) (response response2 : HttpResponse) (p : LibPath)
    (h : List Nat)
    (h1 : (download_file_into_library_inner digest fs ext sha1 size
      response).result = .ok (p, h)) :
    decodeSha1 sha1 = some h ∧
    p = contentAddressedPath h ext ∧
    (download_file_into_library_inner digest
        (download_file_into_library_inner digest fs ext sha1 size response).fs
        ext sha1 size response2).networkUsed = false ∧
    (download_file_into_library_inner digest
        (download_file_into_library_inner digest fs ext sha1 size response).fs
        ext sha1 size response2).finishedFast = true ∧
    (download_file_into_library_inner digest
        (download_file_into_library_inner digest fs ext sha1 size response).fs
        ext sha1 size response2).result = .ok (p, h) ∧
    (download_file_into_library_inner digest
        (download_file_into_library_inner digest fs ext sha1 size response).fs
        ext sha1 size response2).fs =
      (download_file_into_library_inner digest fs ext sha1 size response).fs := by
  obtain ⟨hdec, hp, content, hfsp, hdig⟩ :=
    download_ok_state digest fs ext sha1 size response p h h1
  set out1 := download_file_into_library_inner digest fs ext sha1 size response
    with hout1
  have hverif : check_sha1_hash digest out1.fs
      (contentAddressedPath h ext) h = true := by
    unfold check_sha1_hash
    rw [hp] at hfsp
    rw [hfsp]
    simp [hdig]
  refine ⟨hdec, hp, ?_, ?_, ?_, ?_⟩ <;>
    simp [download_file_into_library_inner, hdec, hverif, hp]

/-- The library state after the C3 witness's first install. -/
def c3_fs1 : LibraryFs :=
  (download_file_into_library_inner c2_digest (fun _ => none) none
    c2_sha1 3 ⟨200, [[1, 2, 3]]⟩).fs

/-- Witness for C3: after the concrete first install of
`download_verification_witness`'s descriptor, a second install of the
same descriptor uses no network, finishes fast, and resolves to the same
path. -/
theorem cache_hit_idempotence_witness :
    (download_file_into_library_inner c2_digest c3_fs1 none c2_sha1 3
      ⟨200, []⟩).networkUsed = false ∧
    (download_file_into_library_inner c2_digest c3_fs1 none c2_sha1 3
      ⟨200, []⟩).finishedFast = true ∧
    (download_file_into_library_inner c2_digest c3_fs1 none c2_sha1 3
      ⟨200, []⟩).result = .ok (contentAddressedPath c2_hash none, c2_hash) := by
  have := cache_hit_idempotence c2_digest (fun _ => none) none c2_sha1 3
    ⟨200, [[1, 2, 3]]⟩ ⟨200, []⟩ (contentAddressedPath c2_hash none) c2_hash
    rfl
  exact ⟨this.2.2.1, this.2.2.2.1, this.2.2.2.2.1⟩

/-- C1 (failing input): two adjacent `Rename` raw events in one
delivered batch (`RenameMode::Both` notifications for `/x → /y` and
`/u → /v`).  Both classify to `Rename`, whose
`change_or_remove_path` is `None` on both sides, so the coalescing
guard `last.change_or_remove_path() != next.change_or_remove_path()`
fails and the first rename is silently dropped: the router is invoked
once, not twice — a `Rename` IS coalesced with an adjacent `Rename`.
The claim's `[Changed(A), Changed(A), Changed(B)]` example, by
contrast, behaves exactly as stated (two router invocations). -/
theorem rename_coalescing_failing_input :
    coalesce (([⟨.Modify (.Name .Both), [["x"], ["y"]]⟩,
        ⟨.Modify (.Name .Both), [["u"], ["v"]]⟩] :
        List NotifyEvent).filterMap get_simple_event) =
      [.Rename ["u"] ["v"]] ∧
    coalesce (([⟨.Modify (.Data .Content), [["A"]]⟩,
        ⟨.Modify (.Data .Content), [["A"]]⟩,
        ⟨.Modify (.Data .Content), [["B"]]⟩] :
        List NotifyEvent).filterMap get_simple_event) =
      [.Changed ["A"] true false, .Changed ["B"] true false] := by
  constructor <;> rfl

/-- Unpacking a successful live-instance lookup: the slot holds exactly
this instance, its ID matches, and the index is in range. -/
lemma getLiveInstance_some (st : BackendState) (id : InstanceID)
    (inst : Instance) (h : getLiveInstance st id = some inst) :
    st.instances.getD id.index none = some inst ∧ inst.id = id ∧
    id.index < st.instances.length := by
  unfold getLiveInstance at h
  cases hslot : st.instances.getD id.index none with
  | none => rw [hslot] at h; exact absurd h (by simp)
  | some o =>
    rw [hslot] at h
    have h' : (if o.id = id then some o else none) = some inst := h
    by_cases hid : o.id = id
    · rw [if_pos hid] at h'
      have ho : o = inst := by simpa using h'
      subst ho
      refine ⟨rfl, hid, ?_⟩
      by_contra hlen
      push_neg at hlen
      rw [List.getD_eq_getElem?_getD, List.getElem?_eq_none hlen] at hslot
      simp at hslot
    · rw [if_neg hid] at h'
      exact absurd h' (by simp)

/-- Looking the instance up again after overwriting its slot yields the
new value, provided the new value keeps the matching ID. -/
lemma getLiveInstance_set (st : BackendState) (id : InstanceID)
    (inst : Instance) (hlt : id.index < st.instances.length)
    (hid : inst.id = id) :
    getLiveInstance (setLiveInstance st id inst) id = some inst := by
  unfold getLiveInstance setLiveInstance
  simp only [List.getD_eq_getElem?_getD, List.getElem?_set_eq_of_lt _ hlt]
  simp [hid]

/-- C8: a `Remove` event on a path watched as `ServersDat` for a live
instance re-registers the watch on the same path with the same target
(when the OS watcher accepts the re-subscription), marks the owning
instance's server state dirty exactly once, and leaves the post-batch
effect set untouched. -/
theorem serversdat_remove_reregisters (st : BackendState)
    (eff : List InstanceID) (path : FPath) (id : InstanceID)
    (inst : Instance)
    (hw : st.watching path = some (.ServersDat id))
    (hlive : getLiveInstance st id = some inst)
    (hok : st.watcherOk path = true) :
    (handle_filesystem_event st eff (.Remove path)).2 = eff ∧
    (handle_filesystem_event st eff (.Remove path)).1.watching path =
      some (.ServersDat id) ∧
    (handle_filesystem_event st eff (.Remove path)).1.actions =
      st.actions ++ [.markServerDirty id] ∧
    getLiveInstance (handle_filesystem_event st eff (.Remove path)).1 id =
      some (mark_server_state_dirty inst) ∧
    (mark_server_state_dirty inst).dirty_servers = true := by
  obtain ⟨hslot, hid, hlt⟩ := getLiveInstance_some st id inst hlive
  have hlive' :
      getLiveInstance { st with watching := watchRemove st.watching path } id =
        some inst := hlive
  have hred : handle_filesystem_event st eff (.Remove path) =
      ({ watching := watchInsert (watchRemove st.watching path) path
            (.ServersDat id)
         instances := st.instances.set id.index
            (some (mark_server_state_dirty inst))
         reload_mods_immediately := st.reload_mods_immediately
         watcherOk := st.watcherOk
         loadInstanceOk := st.loadInstanceOk
         actions := st.actions ++ [.markServerDirty id] }, eff) := by
    simp only [handle_filesystem_event, hw, hlive', pushAction,
      setLiveInstance, hok, ite_true]
  rw [hred]
  refine ⟨rfl, ?_, rfl, ?_, ?_⟩
  · simp [watchInsert]
  · have := getLiveInstance_set
      { st with watching := watchRemove st.watching path } id
      (mark_server_state_dirty inst) hlt
      (by simp [mark_server_state_dirty, hid])
    simpa [setLiveInstance, getLiveInstance] using this
  · simp [mark_server_state_dirty]

/-- Concrete backend state for the C8 witness: one live instance, its
`servers.dat` path watched as `ServersDat`, a cooperative watcher. -/
def c8_state : BackendState :=
  { watching := fun q =>
      if q = ["instances", "alpha", ".minecraft", "servers.dat"] then
        some (.ServersDat ⟨0, 1⟩)
      else none
    instances := [some baseInstance]
    reload_mods_immediately := []
    watcherOk := fun _ => true
    loadInstanceOk := fun _ => true
    actions := [] }

/-- Witness for C8 at the concrete state: the watch survives at the same
path and the dirty marking happens exactly once. -/
theorem serversdat_remove_reregisters_witness :
    (handle_filesystem_event c8_state []
      (.Remove ["instances", "alpha", ".minecraft", "servers.dat"])).2 =
        ([] : List InstanceID) ∧
    (handle_filesystem_event c8_state []
      (.Remove ["instances", "alpha", ".minecraft", "servers.dat"])).1.watching
        ["instances", "alpha", ".minecraft", "servers.dat"] =
      some (.ServersDat ⟨0, 1⟩) ∧
    (handle_filesystem_event c8_state []
      (.Remove ["instances", "alpha", ".minecraft", "servers.dat"])).1.actions =
      [] ++ [.markServerDirty ⟨0, 1⟩] ∧
    getLiveInstance (handle_filesystem_event c8_state []
      (.Remove ["instances", "alpha", ".minecraft", "servers.dat"])).1 ⟨0, 1⟩ =
      some (mark_server_state_dirty baseInstance) ∧
    (mark_server_state_dirty baseInstance).dirty_servers = true :=
  serversdat_remove_reregisters c8_state []
    ["instances", "alpha", ".minecraft", "servers.dat"] ⟨0, 1⟩ baseInstance
    rfl rfl rfl

/-- C9: routing of a `Rename` whose "from" endpoint is watched as
`InstanceDir` for a live instance.  Scenario 1 (`st1`): the "to" parent
is not the watched instances root — the instance is destroyed and no
rename notice is emitted.  Scenario 2 (`st2`): the "to" parent is the
instances root — the display name becomes the "to" path's final folder
name, the registry maps "to" to the same `InstanceDir` target, and a
rename notice plus a modify message are emitted. -/
theorem instance_rename_routing
    (st1 : BackendState) (eff1 : List InstanceID) (src1 dst1 : FPath)
    (id1 : InstanceID) (inst1 : Instance)
    (hw1 : st1.watching src1 = some (.InstanceDir id1))
    (hl1 : getLiveInstance st1 id1 = some inst1)
    (hout : parent_is_instances_dir (watchRemove st1.watching src1) dst1 =
      false)
    (st2 : BackendState) (eff2 : List InstanceID) (src2 dst2 : FPath)
    (id2 : InstanceID) (inst2 : Instance)
    (hw2 : st2.watching src2 = some (.InstanceDir id2))
    (hl2 : getLiveInstance st2 id2 = some inst2)
    (hin : parent_is_instances_dir (watchRemove st2.watching src2) dst2 =
      true) :
    ((handle_filesystem_event st1 eff1 (.Rename src1 dst1)).1.instances.getD
        id1.index none = none ∧
      (handle_filesystem_event st1 eff1 (.Rename src1 dst1)).1.actions =
        st1.actions ++ [.removeInstance id1] ∧
      ∀ o n, RouterAction.sendInfoRename o n ∉
        (handle_filesystem_event st1 eff1
          (.Rename src1 dst1)).1.actions.drop st1.actions.length) ∧
    ((handle_filesystem_event st2 eff2 (.Rename src2 dst2)).1.watching dst2 =
        some (.InstanceDir id2) ∧
      getLiveInstance (handle_filesystem_event st2 eff2
          (.Rename src2 dst2)).1 id2 =
        some { inst2 with name := (fpFileName dst2).getD "" } ∧
      (handle_filesystem_event st2 eff2 (.Rename src2 dst2)).1.actions =
        st2.actions ++
          [.sendInfoRename inst2.name ((fpFileName dst2).getD ""),
            .sendModify id2]) := by
  obtain ⟨hslot1, hid1, hlt1⟩ := getLiveInstance_some st1 id1 inst1 hl1
  obtain ⟨hslot2, hid2, hlt2⟩ := getLiveInstance_some st2 id2 inst2 hl2
  have hl1' :
      getLiveInstance { st1 with watching := watchRemove st1.watching src1 }
        id1 = some inst1 := hl1
  have hl2' :
      getLiveInstance { st2 with watching := watchRemove st2.watching src2 }
        id2 = some inst2 := hl2
  constructor
  · have hred : handle_filesystem_event st1 eff1 (.Rename src1 dst1) =
        ({ watching := watchRemove st1.watching src1
           instances := st1.instances.set id1.index none
           reload_mods_immediately := st1.reload_mods_immediately
           watcherOk := st1.watcherOk
           loadInstanceOk := st1.loadInstanceOk
           actions := st1.actions ++ [.removeInstance id1] }, eff1) := by
      simp only [handle_filesystem_event, hw1, hl1', hout, Bool.not_false,
        ite_true, remove_instance, pushAction]
    rw [hred]
    refine ⟨?_, rfl, ?_⟩
    · simp [List.getD_eq_getElem?_getD, List.getElem?_set_eq_of_lt _ hlt1]
    · intro o n
      simp
  · have hred : handle_filesystem_event st2 eff2 (.Rename src2 dst2) =
        ({ watching := watchInsert (watchRemove st2.watching src2) dst2
              (.InstanceDir id2)
           instances := st2.instances.set id2.index
              (some { inst2 with name := (fpFileName dst2).getD "" })
           reload_mods_immediately := st2.reload_mods_immediately
           watcherOk := st2.watcherOk
           loadInstanceOk := st2.loadInstanceOk
           actions := st2.actions ++
              [.sendInfoRename inst2.name ((fpFileName dst2).getD ""),
                .sendModify id2] }, eff2) := by
      simp only [handle_filesystem_event, hw2, hl2', hin, Bool.not_true,
        Bool.false_eq_true, ite_false, if_false, pushAction, setLiveInstance,
        List.append_assoc, List.cons_append, List.nil_append]
    rw [hred]
    refine ⟨?_, ?_, rfl⟩
    · simp [watchInsert]
    · have := getLiveInstance_set
        { st2 with watching := watchRemove st2.watching src2 } id2
        { inst2 with name := (fpFileName dst2).getD "" } hlt2 (by simp [hid2])
      simpa [setLiveInstance, getLiveInstance] using this

/-- Concrete backend state for the C9 witness: the instances root is
watched, one live instance under it is watched as `InstanceDir`. -/
def c9_state : BackendState :=
  { watching := fun q =>
      if q = ["instances"] then some .InstancesDir
      else if q = ["instances", "alpha"] then some (.InstanceDir ⟨0, 1⟩)
      else none
    instances := [some baseInstance]
    reload_mods_immediately := []
    watcherOk := fun _ => true
    loadInstanceOk := fun _ => true
    actions := [] }

/-- Witness for C9: renaming the instance root out of the instances root
(`["elsewhere", "alpha"]`) destroys the instance without a rename
notice; renaming it inside (`["instances", "beta"]`) relabels it,
re-registers the watch at the new path, and emits the notice. -/
theorem instance_rename_routing_witness :
    ((handle_filesystem_event c9_state []
        (.Rename ["instances", "alpha"] ["elsewhere", "alpha"])).1.instances.getD
        0 none = none ∧
      (handle_filesystem_event c9_state []
        (.Rename ["instances", "alpha"] ["elsewhere", "alpha"])).1.actions =
        [] ++ [.removeInstance ⟨0, 1⟩] ∧
      ∀ o n, RouterAction.sendInfoRename o n ∉
        (handle_filesystem_event c9_state []
          (.Rename ["instances", "alpha"]
            ["elsewhere", "alpha"])).1.actions.drop
          (List.length ([] : List RouterAction))) ∧
    ((handle_filesystem_event c9_state []
        (.Rename ["instances", "alpha"] ["instances", "beta"])).1.watching
        ["instances", "beta"] = some (.InstanceDir ⟨0, 1⟩) ∧
      getLiveInstance (handle_filesystem_event c9_state []
          (.Rename ["instances", "alpha"] ["instances", "beta"])).1 ⟨0, 1⟩ =
        some { baseInstance with
          name := (fpFileName ["instances", "beta"]).getD "" } ∧
      (handle_filesystem_event c9_state []
        (.Rename ["instances", "alpha"] ["instances", "beta"])).1.actions =
        [] ++
          [.sendInfoRename baseInstance.name
              ((fpFileName ["instances", "beta"]).getD ""),
            .sendModify ⟨0, 1⟩]) :=
  instance_rename_routing c9_state [] ["instances", "alpha"]
    ["elsewhere", "alpha"] ⟨0, 1⟩ baseInstance rfl rfl (by decide)
    c9_state [] ["instances", "alpha"] ["instances", "beta"] ⟨0, 1⟩
    baseInstance rfl rfl (by decide)

/-- Instance with a published worlds snapshot and one dirty world path,
about to start an incremental reload (C7 counterexample). -/
def c7_inst0 : Instance :=
  { baseInstance with
    worlds := some []
    worlds_state := .LoadedDirty
    dirty_worlds := [["instances", "alpha", ".minecraft", "saves", "w1"]] }

/-- The same instance right after `start_load_worlds` put the
incremental reload in flight. -/
def c7_inflight : Instance := (start_load_worlds c7_inst0).2

/-- Backend state holding the in-flight instance, with its saves
directory watched (C7 counterexample). -/
def c7_state : BackendState :=
  { watching := fun q =>
      if q = ["instances", "alpha", ".minecraft", "saves"] then
        some (.InstanceSavesDir ⟨0, 1⟩)
      else none
    instances := [some c7_inflight]
    reload_mods_immediately := []
    watcherOk := fun _ => true
    loadInstanceOk := fun _ => true
    actions := [] }

/-- C7 (counterexample): the claim "the dirty set is empty while a load
using it is in flight" fails on the code.  Starting the incremental
worlds reload drains the dirty set, but a `Changed` event under the
watched saves directory arriving while that load is still in flight
re-populates `dirty_worlds`, so the pipeline's dirty set is non-empty
with the load in flight. -/
theorem dirty_drain_counterexample :
    (start_load_worlds c7_inst0).1 = .Reload ∧
    c7_inflight.dirty_worlds = [] ∧
    c7_inflight.worlds_loading.isSome = true ∧
    ((getLiveInstance (handle_filesystem_event c7_state []
        (.Changed ["instances", "alpha", ".minecraft", "saves", "w2"]
          true true)).1 ⟨0, 1⟩).map fun i =>
      (decide (i.dirty_worlds ≠ []), i.worlds_loading.isSome)) =
      some (true, true) := by
  refine ⟨rfl, rfl, rfl, ?_⟩
  rfl

/-- Dirt inserted into a pipeline while its load is in flight never
reaches the captured task (worlds variant). -/
lemma insertDirtyWorld_preserves_loading (i : Instance) (p : FPath) :
    (insertDirtyWorld i p).worlds_loading = i.worlds_loading ∧
    (insertDirtyWorld i p).worlds = i.worlds := by
  unfold insertDirtyWorld hsetInsert
  by_cases hmem : p ∈ i.dirty_worlds <;>
    simp [hmem, mark_world_state_dirty]

/-- Dirt inserted into the mods pipeline while its load is in flight
never reaches the captured task. -/
lemma insertDirtyMod_preserves_loading (i : Instance)
    (markers eff : List InstanceID) (p : FPath) :
    (insertDirtyMod i markers eff p).1.mods_loading = i.mods_loading ∧
    (insertDirtyMod i markers eff p).1.mods = i.mods := by
  unfold insertDirtyMod hsetInsert
  by_cases hmem : p ∈ i.dirty_mods
  · simp [hmem]
  · simp only [hmem, ite_false, if_false, Bool.false_eq_true]
    by_cases hmk : i.id ∈ markers <;>
      simp [hmk, mark_mods_state_dirty]

/-- C7 (amended): each pipeline's dirty set is drained exactly once per
load cycle, at the moment the incremental load starts — the drained
contents go to the spawned task and the live set is left empty at that
moment; while a load is in flight `start_load` refuses to drain again,
and dirt arriving mid-flight accumulates in the live set for the next
cycle without altering the in-flight task or snapshot (so the set need
not stay empty during the flight). -/
theorem dirty_drain_amended
    (iW : Instance) (prevW : List InstanceWorldSummary)
    (hW1 : iW.worlds_loading = none) (hW2 : iW.worlds = some prevW)
    (hW3 : iW.dirty_worlds ≠ [])
    (jW : Instance) (hjW : jW.worlds_loading.isSome)
    (iM : Instance) (prevM : List InstanceModSummary)
    (hM1 : iM.mods_loading = none) (hM2 : iM.mods = some prevM)
    (hM3 : iM.dirty_mods ≠ [])
    (jM : Instance) (hjM : jM.mods_loading.isSome)
    (iS : Instance) (prevS : List InstanceServerSummary)
    (hS1 : iS.servers_loading = none) (hS2 : iS.servers = some prevS)
    (hS3 : iS.dirty_servers = true)
    (jS : Instance) (hjS : jS.servers_loading.isSome) :
    ((start_load_worlds iW).1 = .Reload ∧
      (start_load_worlds iW).2.dirty_worlds = [] ∧
      (start_load_worlds iW).2.worlds_loading =
        some (.dirty iW.dirty_worlds prevW)) ∧
    start_load_worlds jW = (.None, jW) ∧
    (∀ p, (insertDirtyWorld jW p).worlds_loading = jW.worlds_loading) ∧
    ((start_load_mods iM).1 = .Reload ∧
      (start_load_mods iM).2.dirty_mods = [] ∧
      (start_load_mods iM).2.mods_loading =
        some (.dirty iM.dirty_mods prevM)) ∧
    start_load_mods jM = (.None, jM) ∧
    (∀ markers eff p,
      (insertDirtyMod jM markers eff p).1.mods_loading = jM.mods_loading) ∧
    ((start_load_servers iS).1 = .Reload ∧
      (start_load_servers iS).2.dirty_servers = false ∧
      (start_load_servers iS).2.servers_loading = some .full) ∧
    start_load_servers jS = (.None, jS) ∧
    (mark_server_state_dirty jS).servers_loading = jS.servers_loading := by
  refine ⟨⟨?_, ?_, ?_⟩, ?_, ?_, ⟨?_, ?_, ?_⟩, ?_, ?_, ⟨?_, ?_, ?_⟩, ?_, ?_⟩
  · unfold start_load_worlds
    rw [hW1]; simp [hW2, List.isEmpty_iff, hW3]
  · unfold start_load_worlds
    rw [hW1]; simp [hW2, List.isEmpty_iff, hW3]
  · unfold start_load_worlds
    rw [hW1]; simp [hW2, List.isEmpty_iff, hW3]
  · unfold start_load_worlds; rw [if_pos hjW]
  · exact fun p => (insertDirtyWorld_preserves_loading jW p).1
  · unfold start_load_mods
    rw [hM1]; simp [hM2, List.isEmpty_iff, hM3]
  · unfold start_load_mods
    rw [hM1]; simp [hM2, List.isEmpty_iff, hM3]
  · unfold start_load_mods
    rw [hM1]; simp [hM2, List.isEmpty_iff, hM3]
  · unfold start_load_mods; rw [if_pos hjM]
  · exact fun markers eff p =>
      (insertDirtyMod_preserves_loading jM markers eff p).1
  · unfold start_load_servers; rw [hS1]; simp [hS2, hS3]
  · unfold start_load_servers; rw [hS1]; simp [hS2, hS3]
  · unfold start_load_servers; rw [hS1]; simp [hS2, hS3]
  · unfold start_load_servers; rw [if_pos hjS]
  · simp [mark_server_state_dirty]

/-- Dirty instance used by the C7 amended witness. -/
def c7w_dirty : Instance :=
  { baseInstance with
    worlds := some []
    dirty_worlds := [["saves", "w1"]]
    mods := some []
    dirty_mods := [["mods", "m1.jar"]]
    servers := some []
    dirty_servers := true }

/-- In-flight instance used by the C7 amended witness. -/
def c7w_inflight : Instance :=
  { baseInstance with
    worlds_loading := some .initial
    mods_loading := some .initial
    servers_loading := some .full }

/-- Witness for the amended C7 at concrete instances. -/
theorem dirty_drain_amended_witness :
    ((start_load_worlds c7w_dirty).1 = .Reload ∧
      (start_load_worlds c7w_dirty).2.dirty_worlds = [] ∧
      (start_load_worlds c7w_dirty).2.worlds_loading =
        some (.dirty c7w_dirty.dirty_worlds [])) ∧
    start_load_worlds c7w_inflight = (.None, c7w_inflight) ∧
    (∀ p, (insertDirtyWorld c7w_inflight p).worlds_loading =
      c7w_inflight.worlds_loading) ∧
    ((start_load_mods c7w_dirty).1 = .Reload ∧
      (start_load_mods c7w_dirty).2.dirty_mods = [] ∧
      (start_load_mods c7w_dirty).2.mods_loading =
        some (.dirty c7w_dirty.dirty_mods [])) ∧
    start_load_mods c7w_inflight = (.None, c7w_inflight) ∧
    (∀ markers eff p,
      (insertDirtyMod c7w_inflight markers eff p).1.mods_loading =
        c7w_inflight.mods_loading) ∧
    ((start_load_servers c7w_dirty).1 = .Reload ∧
      (start_load_servers c7w_dirty).2.dirty_servers = false ∧
      (start_load_servers c7w_dirty).2.servers_loading = some .full) ∧
    start_load_servers c7w_inflight = (.None, c7w_inflight) ∧
    (mark_server_state_dirty c7w_inflight).servers_loading =
      c7w_inflight.servers_loading :=
  dirty_drain_amended c7w_dirty [] rfl rfl (by decide)
    c7w_inflight (by decide)
    c7w_dirty [] rfl rfl (by decide)
    c7w_inflight (by decide)
    c7w_dirty [] rfl rfl rfl
    c7w_inflight (by decide)

/-- Previous-snapshot world entry number `i` for the C5 scenario
(distinct timestamps `100 + i`). -/
def c5_old (i : Nat) : InstanceWorldSummary :=
  { title := "w", subtitle := "s", level_path := ["saves", toString i]
    last_played := (100 : Int) + i, png_icon := none }

/-- The 64-entry previous world snapshot of the C5 scenario. -/
def c5_last : List InstanceWorldSummary := (List.range 64).map c5_old

/-- The dirty set of the C5 scenario: two existing world directories and
one new one. -/
def c5_dirty : List FPath := [["saves", "62"], ["saves", "63"], ["saves", "new"]]

/-- The C5 on-disk state: the three dirty paths are directories that
parse with fresh (newest) timestamps; every previous entry still
exists. -/
def c5_disk : WorldsDisk :=
  { isDir := fun p => decide (p ∈ c5_dirty)
    parseWorld := fun p =>
      if p = ["saves", "62"] then some ("w62", "s", 1062, none)
      else if p = ["saves", "63"] then some ("w63", "s", 1063, none)
      else if p = ["saves", "new"] then some ("wnew", "s", 1064, none)
      else none
    pathExists := fun _ => true }

set_option maxRecDepth 8000 in
/-- C5 (counterexample): with a 64-entry previous snapshot, a dirty set
of 2 existing + 1 new directory, and all previous entries still on disk,
the merge produces 65 candidates but truncates to 64, dropping the
oldest untouched entry — so the untouched entry `c5_old 0` (not named in
the dirty set, still existing on disk) is NOT retained, contradicting
the claim. -/
theorem world_merge_counterexample :
    c5_last.length = 64 ∧
    c5_old 0 ∈ c5_last ∧
    (c5_old 0).level_path ∉ c5_dirty ∧
    c5_disk.pathExists (c5_old 0).level_path = true ∧
    c5_old 0 ∉ load_worlds_dirty_task c5_disk c5_dirty c5_last := by
  decide

/-- `i64` wrapping is the identity on in-range values. -/
lemma i64wrap_eq (x : Int) (h1 : -(2 ^ 63) ≤ x) (h2 : x < 2 ^ 63) :
    i64wrap x = x := by
  unfold i64wrap
  rw [Int.emod_eq_of_lt (by omega) (by omega)]
  omega

/-- For in-range timestamps the worlds sort key is plain negation. -/
lemma worldSortKey_eq (s : InstanceWorldSummary)
    (h1 : -(2 ^ 63 : Int) < s.last_played) (h2 : s.last_played < 2 ^ 63) :
    worldSortKey s = -s.last_played :=
  i64wrap_eq _ (by omega) (by omega)

/-- C5 (amended): in the 64-entry / 2-existing-plus-1-new scenario the
merge re-parses exactly the dirty paths (all directories), carries over
unchanged every untouched previous entry that still exists into the
candidate pool, sorts the 65 candidates descending by last-played, and
truncates to 64 — so exactly one candidate is dropped, and any dropped
candidate (possibly an untouched existing entry) has a sort key no
smaller (a last-played no larger) than everything retained. -/
theorem world_merge_amended
    (d : WorldsDisk) (dirty : List FPath) (last : List InstanceWorldSummary)
    (pa pb pc : FPath) (qa qb qc : String × String × Int × Option Nat)
    (h64 : last.length = 64)
    (hd : dirty = [pa, pb, pc])
    (hda : d.isDir pa = true) (hdb : d.isDir pb = true)
    (hdc : d.isDir pc = true)
    (hpa : d.parseWorld pa = some qa) (hpb : d.parseWorld pb = some qb)
    (hpc : d.parseWorld pc = some qc)
    (hcount : (last.filter fun s => decide (s.level_path ∈ dirty)).length = 2)
    (hex : ∀ s ∈ last, d.pathExists s.level_path = true)
    (hrange : ∀ s ∈ last,
      -(2 ^ 63 : Int) < s.last_played ∧ s.last_played < 2 ^ 63)
    (hra : -(2 ^ 63 : Int) < qa.2.2.1 ∧ qa.2.2.1 < 2 ^ 63)
    (hrb : -(2 ^ 63 : Int) < qb.2.2.1 ∧ qb.2.2.1 < 2 ^ 63)
    (hrc : -(2 ^ 63 : Int) < qc.2.2.1 ∧ qc.2.2.1 < 2 ^ 63) :
    worldsParsed d dirty =
      [⟨qa.1, qa.2.1, pa, qa.2.2.1, qa.2.2.2⟩,
        ⟨qb.1, qb.2.1, pb, qb.2.2.1, qb.2.2.2⟩,
        ⟨qc.1, qc.2.1, pc, qc.2.2.1, qc.2.2.2⟩] ∧
    (worldsCarried d dirty last).length = 62 ∧
    (∀ s ∈ last, s.level_path ∉ dirty → s ∈ worldsCarried d dirty last) ∧
    (load_worlds_dirty_task d dirty last).length = 64 ∧
    (∀ s ∈ load_worlds_dirty_task d dirty last,
      s ∈ worldsMergeCandidates d dirty last) ∧
    (load_worlds_dirty_task d dirty last).Pairwise
      (fun x y => y.last_played ≤ x.last_played) ∧
    (∀ s ∈ worldsMergeCandidates d dirty last,
      s ∉ load_worlds_dirty_task d dirty last →
      ∀ t ∈ load_worlds_dirty_task d dirty last,
        worldSortKey t ≤ worldSortKey s) := by
  have hparsed : worldsParsed d dirty =
      [⟨qa.1, qa.2.1, pa, qa.2.2.1, qa.2.2.2⟩,
        ⟨qb.1, qb.2.1, pb, qb.2.2.1, qb.2.2.2⟩,
        ⟨qc.1, qc.2.1, pc, qc.2.2.1, qc.2.2.2⟩] := by
    subst hd
    simp [worldsParsed, parseDirtyWorlds, hda, hdb, hdc, load_world_summary,
      hpa, hpb, hpc]
  have hcarr_eq : worldsCarried d dirty last =
      last.filter fun s => !decide (s.level_path ∈ dirty) := by
    unfold worldsCarried
    refine List.filter_congr ?_
    intro x hx
    simp [hex x hx]
  have hclen : (worldsCarried d dirty last).length = 62 := by
    rw [hcarr_eq]
    have h2 : last.length =
        (last.filter fun s => decide (s.level_path ∈ dirty)).length +
        (last.filter fun s => !decide (s.level_path ∈ dirty)).length := by
      simpa using List.length_eq_length_filter_add
        (l := last) fun s => decide (s.level_path ∈ dirty)
    rw [h64, hcount] at h2
    omega
  have hcand : (worldsMergeCandidates d dirty last).length = 65 := by
    unfold worldsMergeCandidates
    rw [List.length_append, hparsed, hclen]
    simp
  have hperm := List.perm_insertionSort worldLE
    (worldsMergeCandidates d dirty last)
  have hsortlen :
      (List.insertionSort worldLE (worldsMergeCandidates d dirty last)).length
        = 65 := hperm.length_eq.trans hcand
  have hsorted := List.sorted_insertionSort worldLE
    (worldsMergeCandidates d dirty last)
  have hmemres : ∀ s ∈ load_worlds_dirty_task d dirty last,
      s ∈ worldsMergeCandidates d dirty last := by
    intro s hs
    unfold load_worlds_dirty_task at hs
    exact hperm.mem_iff.mp (List.take_subset _ _ hs)
  have hrgcand : ∀ s ∈ worldsMergeCandidates d dirty last,
      -(2 ^ 63 : Int) < s.last_played ∧ s.last_played < 2 ^ 63 := by
    intro s hsc
    unfold worldsMergeCandidates at hsc
    rcases List.mem_append.mp hsc with hpar | hcar
    · rw [hparsed] at hpar
      simp only [List.mem_cons, List.not_mem_nil, or_false] at hpar
      rcases hpar with h | h | h
      · rw [h]; exact hra
      · rw [h]; exact hrb
      · rw [h]; exact hrc
    · rw [hcarr_eq] at hcar
      exact hrange s (List.filter_subset' last hcar)
  refine ⟨hparsed, hclen, ?_, ?_, hmemres, ?_, ?_⟩
  · intro s hs hnot
    unfold worldsCarried
    exact List.mem_filter.mpr ⟨hs, by simp [hnot, hex s hs]⟩
  · unfold load_worlds_dirty_task
    rw [List.length_take, hsortlen]
    norm_num
  · have htake : (load_worlds_dirty_task d dirty last).Pairwise worldLE := by
      unfold load_worlds_dirty_task
      exact hsorted.sublist (List.take_sublist _ _)
    refine htake.imp_of_mem ?_
    intro a b ha hb hab
    obtain ⟨ha1, ha2⟩ := hrgcand a (hmemres a ha)
    obtain ⟨hb1, hb2⟩ := hrgcand b (hmemres b hb)
    have hka := worldSortKey_eq a ha1 ha2
    have hkb := worldSortKey_eq b hb1 hb2
    unfold worldLE at hab
    omega
  · intro s hs hnot t ht
    have hsplit := List.take_append_drop 64
      (List.insertionSort worldLE (worldsMergeCandidates d dirty last))
    have hcross := (List.pairwise_append.mp
      (show List.Pairwise worldLE _ by rw [hsplit]; exact hsorted)).2.2
    have hsineq : s ∈
        (List.insertionSort worldLE (worldsMergeCandidates d dirty last)).take 64 ++
        (List.insertionSort worldLE (worldsMergeCandidates d dirty last)).drop 64 := by
      rw [hsplit]
      exact hperm.mem_iff.mpr hs
    rcases List.mem_append.mp hsineq with hin | hdrop
    · exact absurd hin hnot
    · exact hcross t ht s hdrop

set_option maxRecDepth 8000 in
/-- Witness for the amended C5 at the concrete 64-entry scenario. -/
theorem world_merge_amended_witness :
    worldsParsed c5_disk c5_dirty =
      [⟨"w62", "s", ["saves", "62"], 1062, none⟩,
        ⟨"w63", "s", ["saves", "63"], 1063, none⟩,
        ⟨"wnew", "s", ["saves", "new"], 1064, none⟩] ∧
    (worldsCarried c5_disk c5_dirty c5_last).length = 62 ∧
    (∀ s ∈ c5_last, s.level_path ∉ c5_dirty →
      s ∈ worldsCarried c5_disk c5_dirty c5_last) ∧
    (load_worlds_dirty_task c5_disk c5_dirty c5_last).length = 64 ∧
    (∀ s ∈ load_worlds_dirty_task c5_disk c5_dirty c5_last,
      s ∈ worldsMergeCandidates c5_disk c5_dirty c5_last) ∧
    (load_worlds_dirty_task c5_disk c5_dirty c5_last).Pairwise
      (fun x y => y.last_played ≤ x.last_played) ∧
    (∀ s ∈ worldsMergeCandidates c5_disk c5_dirty c5_last,
      s ∉ load_worlds_dirty_task c5_disk c5_dirty c5_last →
      ∀ t ∈ load_worlds_dirty_task c5_disk c5_dirty c5_last,
        worldSortKey t ≤ worldSortKey s) :=
  world_merge_amended c5_disk c5_dirty c5_last
    ["saves", "62"] ["saves", "63"] ["saves", "new"]
    ("w62", "s", 1062, none) ("w63", "s", 1063, none)
    ("wnew", "s", 1064, none)
    (by decide) rfl (by decide) (by decide) (by decide)
    (by decide) (by decide) (by decide)
    (by decide) (by decide) (by decide)
    (by decide) (by decide) (by decide)

end Launcher
